import Mathlib

/-!
Verification of the vector / plane / matrix / viewport subsystem of
`g_d3dmath.h` (Simple 3d Math, apartfromtime/math).

Every definition below is a direct translation of the corresponding C
function, with the IEEE-754 single-precision arithmetic modelled as exact
real arithmetic: `sqrtf` becomes `Real.sqrt`, `sinf`/`cosf`/`tanf` become
`Real.sin`/`Real.cos`/`Real.tan`.  Field names `n0` … `n15` correspond to
the source's `m.n[0]` … `m.n[15]` (row-major, translation in entries
12, 13, 14, row-vector convention `v' = v * M`).
-/

namespace D3D

noncomputable section

/-- The `vector3_t` struct: a 3d vector of three scalar components. -/
structure vector3_t where
  x : ℝ
  y : ℝ
  z : ℝ

/-- The `vector4_t` struct: a 4d vector of four scalar components. -/
structure vector4_t where
  x : ℝ
  y : ℝ
  z : ℝ
  w : ℝ

/-- The `plane_t` struct: coefficients of the implicit surface
`a*x + b*y + c*z + d = 0`. -/
structure plane_t where
  a : ℝ
  b : ℝ
  c : ℝ
  d : ℝ

/-- The `matrix4_t` struct: 16 scalars in the source's linear layout
`m.n[0]` … `m.n[15]`. -/
structure matrix4_t where
  n0 : ℝ
  n1 : ℝ
  n2 : ℝ
  n3 : ℝ
  n4 : ℝ
  n5 : ℝ
  n6 : ℝ
  n7 : ℝ
  n8 : ℝ
  n9 : ℝ
  n10 : ℝ
  n11 : ℝ
  n12 : ℝ
  n13 : ℝ
  n14 : ℝ
  n15 : ℝ

/-- The `viewport_t` struct: integer origin and extent plus a depth range. -/
structure viewport_t where
  x : ℕ
  y : ℕ
  w : ℕ
  h : ℕ
  minZ : ℝ
  maxZ : ℝ

/-- Source constant `H_PI` (the float literal `1.57079633f`). -/
def H_PI : ℝ := 1.57079633

/-- Source `Vector3` constructor. -/
def Vector3 (x y z : ℝ) : vector3_t := ⟨x, y, z⟩

/-- Source `Vector4` constructor. -/
def Vector4 (x y z w : ℝ) : vector4_t := ⟨x, y, z, w⟩

/-- Source `Plane` constructor. -/
def Plane (a b c d : ℝ) : plane_t := ⟨a, b, c, d⟩

/-- Source `Viewport` constructor. -/
def Viewport (x y w h : ℕ) (minZ maxZ : ℝ) : viewport_t :=
  ⟨x, y, w, h, minZ, maxZ⟩

/-- Source `Matrix4` constructor: 16 row-major arguments `_11` … `_44`
stored at `n[0]` … `n[15]`. -/
def Matrix4 (m11 m12 m13 m14 m21 m22 m23 m24
    m31 m32 m33 m34 m41 m42 m43 m44 : ℝ) : matrix4_t :=
  ⟨m11, m12, m13, m14, m21, m22, m23, m24,
   m31, m32, m33, m34, m41, m42, m43, m44⟩

/-- The zero-argument call `Matrix4()`: with all its default arguments the
source constructor yields the identity matrix. -/
def identityMatrix4 : matrix4_t :=
  Matrix4 1 0 0 0 0 1 0 0 0 0 1 0 0 0 0 1

/-- Source `DotVector4`. -/
def DotVector4 (a b : vector4_t) : ℝ :=
  a.x * b.x + a.y * b.y + a.z * b.z + a.w * b.w

/-- Source `DotVector3`. -/
def DotVector3 (a b : vector3_t) : ℝ :=
  a.x * b.x + a.y * b.y + a.z * b.z

/-- Source `LengthVector3`: `sqrtf(DotVector3(a, a))`. -/
def LengthVector3 (a : vector3_t) : ℝ :=
  Real.sqrt (DotVector3 a a)

/-- Source `AddVector3`. -/
def AddVector3 (a b : vector3_t) : vector3_t :=
  Vector3 (a.x + b.x) (a.y + b.y) (a.z + b.z)

/-- Source `SubtractVector3`. -/
def SubtractVector3 (a b : vector3_t) : vector3_t :=
  Vector3 (a.x - b.x) (a.y - b.y) (a.z - b.z)

/-- Source `ScaleVector3`. -/
def ScaleVector3 (a : vector3_t) (s : ℝ) : vector3_t :=
  Vector3 (a.x * s) (a.y * s) (a.z * s)

/-- Source `SubtractVector4`.  The translation is literal: the source
subtracts the `x`, `y`, `z` components but writes `v.w = a.w + b.w`. -/
def SubtractVector4 (a b : vector4_t) : vector4_t :=
  Vector4 (a.x - b.x) (a.y - b.y) (a.z - b.z) (a.w + b.w)

/-- Source `NormalizeVector3`: guarded by `a.x != 0 || a.y != 0 || a.z != 0`;
otherwise returns the zero vector `Vector3()`. -/
def NormalizeVector3 (a : vector3_t) : vector3_t :=
  if a.x ≠ 0 ∨ a.y ≠ 0 ∨ a.z ≠ 0 then
    let l : ℝ := Real.sqrt (DotVector3 a a)
    Vector3 (a.x * (1 / l)) (a.y * (1 / l)) (a.z * (1 / l))
  else
    Vector3 0 0 0

/-- Source `TransformVector4`: row-vector times matrix. -/
def TransformVector4 (v : vector4_t) (m : matrix4_t) : vector4_t :=
  Vector4
    (v.x * m.n0 + v.y * m.n4 + v.z * m.n8 + v.w * m.n12)
    (v.x * m.n1 + v.y * m.n5 + v.z * m.n9 + v.w * m.n13)
    (v.x * m.n2 + v.y * m.n6 + v.z * m.n10 + v.w * m.n14)
    (v.x * m.n3 + v.y * m.n7 + v.z * m.n11 + v.w * m.n15)

/-- Source `TransformVector3Coord`: transforms the point with an implicit
`w = 1` (the translation entries `n[12]`, `n[13]`, `n[14]` are added), drops
the resulting `w` with no perspective divide. -/
def TransformVector3Coord (v : vector3_t) (m : matrix4_t) : vector3_t :=
  Vector3
    (v.x * m.n0 + v.y * m.n4 + v.z * m.n8 + m.n12)
    (v.x * m.n1 + v.y * m.n5 + v.z * m.n9 + m.n13)
    (v.x * m.n2 + v.y * m.n6 + v.z * m.n10 + m.n14)

/-- Source `TransformVector3Normal`: its body is identical to
`TransformVector3Coord`, translation entries included. -/
def TransformVector3Normal (v : vector3_t) (m : matrix4_t) : vector3_t :=
  Vector3
    (v.x * m.n0 + v.y * m.n4 + v.z * m.n8 + m.n12)
    (v.x * m.n1 + v.y * m.n5 + v.z * m.n9 + m.n13)
    (v.x * m.n2 + v.y * m.n6 + v.z * m.n10 + m.n14)

/-- Source `DotPlane`. -/
def DotPlane (p : plane_t) (v : vector4_t) : ℝ :=
  DotVector4 (Vector4 p.a p.b p.c p.d) v

/-- Source `DotPlaneCoordinate`: the vector's `w` is taken to be 1. -/
def DotPlaneCoordinate (p : plane_t) (position : vector3_t) : ℝ :=
  DotVector4 (Vector4 p.a p.b p.c p.d)
    (Vector4 position.x position.y position.z 1)

/-- Source `NormalizePlane`: normalizes `(a, b, c)` through
`NormalizeVector3` and returns `Plane(v.x, v.y, v.z, p.d)` — the `d`
component is carried over unchanged. -/
def NormalizePlane (p : plane_t) : plane_t :=
  let v := NormalizeVector3 (Vector3 p.a p.b p.c)
  Plane v.x v.y v.z p.d

/-- Source `LineIntersectPlane`.  `d0` and `d1` are `LengthVector3` of the
endpoints (their distances from the origin); the endpoints and distances
are swapped when `d1 < d0`; the interpolation branch runs only when
`plane.d > d0 && plane.d < d1`, and otherwise the code returns
`(plane.d - d0) <= (plane.d - d1) ? v0 : v1`. -/
def LineIntersectPlane (p : plane_t) (p0 p1 : vector3_t) : vector3_t :=
  let d0 := LengthVector3 p0
  let d1 := LengthVector3 p1
  let v0 := if d1 < d0 then p1 else p0
  let v1 := if d1 < d0 then p0 else p1
  let e0 := if d1 < d0 then d1 else d0
  let e1 := if d1 < d0 then d0 else d1
  if p.d > e0 ∧ p.d < e1 then
    let v2 := Vector3 p.a p.b p.c
    let v3 := SubtractVector3 v1 v0
    let f0 := DotVector3 v2 v0 + p.d
    let f1 := LengthVector3 v3
    let f2 := f0 / f1
    AddVector3 v0 (ScaleVector3 v3 f2)
  else
    if p.d - e0 ≤ p.d - e1 then v0 else v1

/-- Source `MultiplyMatrix4`: the standard row-major product
`m[i][j] = sum of a[i][k] * b[k][j]`, all 16 entries written out as in
the source. -/
def MultiplyMatrix4 (a b : matrix4_t) : matrix4_t :=
  Matrix4
    (a.n0 * b.n0 + a.n1 * b.n4 + a.n2 * b.n8 + a.n3 * b.n12)
    (a.n0 * b.n1 + a.n1 * b.n5 + a.n2 * b.n9 + a.n3 * b.n13)
    (a.n0 * b.n2 + a.n1 * b.n6 + a.n2 * b.n10 + a.n3 * b.n14)
    (a.n0 * b.n3 + a.n1 * b.n7 + a.n2 * b.n11 + a.n3 * b.n15)
    (a.n4 * b.n0 + a.n5 * b.n4 + a.n6 * b.n8 + a.n7 * b.n12)
    (a.n4 * b.n1 + a.n5 * b.n5 + a.n6 * b.n9 + a.n7 * b.n13)
    (a.n4 * b.n2 + a.n5 * b.n6 + a.n6 * b.n10 + a.n7 * b.n14)
    (a.n4 * b.n3 + a.n5 * b.n7 + a.n6 * b.n11 + a.n7 * b.n15)
    (a.n8 * b.n0 + a.n9 * b.n4 + a.n10 * b.n8 + a.n11 * b.n12)
    (a.n8 * b.n1 + a.n9 * b.n5 + a.n10 * b.n9 + a.n11 * b.n13)
    (a.n8 * b.n2 + a.n9 * b.n6 + a.n10 * b.n10 + a.n11 * b.n14)
    (a.n8 * b.n3 + a.n9 * b.n7 + a.n10 * b.n11 + a.n11 * b.n15)
    (a.n12 * b.n0 + a.n13 * b.n4 + a.n14 * b.n8 + a.n15 * b.n12)
    (a.n12 * b.n1 + a.n13 * b.n5 + a.n14 * b.n9 + a.n15 * b.n13)
    (a.n12 * b.n2 + a.n13 * b.n6 + a.n14 * b.n10 + a.n15 * b.n14)
    (a.n12 * b.n3 + a.n13 * b.n7 + a.n14 * b.n11 + a.n15 * b.n15)

/-- Source `DeterminantMatrix4`, with the exact eight terms and the exact
signs of the source expression (a single `-` before the fifth term, `+`
before all others). -/
def DeterminantMatrix4 (m : matrix4_t) : ℝ :=
  m.n0 * m.n5 * m.n10 * m.n15 +
  m.n4 * m.n9 * m.n14 * m.n3 +
  m.n8 * m.n13 * m.n2 * m.n7 +
  m.n12 * m.n1 * m.n6 * m.n11 -
  m.n12 * m.n9 * m.n6 * m.n3 +
  m.n8 * m.n5 * m.n2 * m.n15 +
  m.n4 * m.n1 * m.n14 * m.n11 +
  m.n0 * m.n13 * m.n10 * m.n7

/-- Source `InverseMatrix4`: builds the 16 cofactor entries `a.n[i]`,
computes `d = DeterminantMatrix4(m)`, returns the identity (`Matrix4()`)
when `d == 0.0f`, and otherwise multiplies every entry by `1/d`. -/
def InverseMatrix4Cofactors (m : matrix4_t) : matrix4_t :=
  Matrix4
    (m.n5 * m.n10 * m.n15 + m.n9 * m.n14 * m.n7 + m.n13 * m.n6 * m.n11 -
      m.n13 * m.n10 * m.n7 - m.n9 * m.n6 * m.n15 - m.n5 * m.n14 * m.n11)
    (-(m.n1 * m.n10 * m.n15 + m.n9 * m.n14 * m.n3 + m.n13 * m.n2 * m.n11 -
      m.n13 * m.n10 * m.n3 - m.n9 * m.n2 * m.n15 - m.n1 * m.n14 * m.n11))
    (m.n1 * m.n6 * m.n15 + m.n5 * m.n14 * m.n3 + m.n13 * m.n2 * m.n7 -
      m.n13 * m.n6 * m.n3 - m.n5 * m.n2 * m.n15 - m.n1 * m.n14 * m.n7)
    (-(m.n1 * m.n6 * m.n14 + m.n5 * m.n10 * m.n3 + m.n9 * m.n2 * m.n7 -
      m.n9 * m.n6 * m.n3 - m.n5 * m.n2 * m.n11 - m.n1 * m.n10 * m.n7))
    (-(m.n4 * m.n10 * m.n15 + m.n8 * m.n14 * m.n7 + m.n12 * m.n6 * m.n11 -
      m.n12 * m.n10 * m.n7 - m.n8 * m.n6 * m.n15 - m.n4 * m.n14 * m.n11))
    (m.n0 * m.n10 * m.n15 + m.n8 * m.n14 * m.n3 + m.n12 * m.n2 * m.n11 -
      m.n12 * m.n10 * m.n3 - m.n8 * m.n2 * m.n15 - m.n0 * m.n14 * m.n11)
    (-(m.n0 * m.n6 * m.n15 + m.n4 * m.n14 * m.n3 + m.n12 * m.n2 * m.n7 -
      m.n12 * m.n6 * m.n3 - m.n4 * m.n2 * m.n15 - m.n0 * m.n14 * m.n7))
    (m.n0 * m.n6 * m.n11 + m.n4 * m.n10 * m.n3 + m.n8 * m.n2 * m.n7 -
      m.n8 * m.n6 * m.n3 - m.n4 * m.n2 * m.n11 - m.n0 * m.n10 * m.n7)
    (m.n4 * m.n9 * m.n15 + m.n8 * m.n13 * m.n7 + m.n12 * m.n5 * m.n11 -
      m.n12 * m.n9 * m.n7 - m.n8 * m.n5 * m.n15 - m.n4 * m.n13 * m.n11)
    (-(m.n0 * m.n9 * m.n15 + m.n8 * m.n13 * m.n3 + m.n12 * m.n1 * m.n11 -
      m.n12 * m.n9 * m.n3 - m.n8 * m.n1 * m.n15 - m.n0 * m.n13 * m.n11))
    (m.n0 * m.n5 * m.n15 + m.n4 * m.n13 * m.n3 + m.n12 * m.n1 * m.n7 -
      m.n12 * m.n5 * m.n3 - m.n4 * m.n1 * m.n15 - m.n0 * m.n13 * m.n7)
    (-(m.n0 * m.n5 * m.n11 + m.n4 * m.n9 * m.n3 + m.n8 * m.n1 * m.n7 -
      m.n8 * m.n5 * m.n3 - m.n4 * m.n1 * m.n11 - m.n0 * m.n9 * m.n7))
    (-(m.n4 * m.n9 * m.n14 + m.n8 * m.n13 * m.n6 + m.n12 * m.n5 * m.n10 -
      m.n12 * m.n9 * m.n6 - m.n8 * m.n5 * m.n14 - m.n4 * m.n13 * m.n10))
    (m.n0 * m.n9 * m.n14 + m.n8 * m.n13 * m.n2 + m.n12 * m.n1 * m.n10 -
      m.n12 * m.n9 * m.n2 - m.n8 * m.n1 * m.n14 - m.n0 * m.n13 * m.n10)
    (-(m.n0 * m.n5 * m.n14 + m.n4 * m.n13 * m.n2 + m.n12 * m.n1 * m.n6 -
      m.n12 * m.n5 * m.n2 - m.n4 * m.n1 * m.n14 - m.n0 * m.n13 * m.n6))
    (m.n0 * m.n5 * m.n10 + m.n4 * m.n9 * m.n2 + m.n8 * m.n1 * m.n6 -
      m.n8 * m.n5 * m.n2 - m.n4 * m.n1 * m.n10 - m.n0 * m.n9 * m.n6)

/-- Source `InverseMatrix4` (see `InverseMatrix4Cofactors` for the entry
expressions `a.n[0]` … `a.n[15]` built by the first part of the body). -/
def InverseMatrix4 (m : matrix4_t) : matrix4_t :=
  let a := InverseMatrix4Cofactors m
  let d := DeterminantMatrix4 m
  if d = 0 then
    identityMatrix4
  else
    Matrix4
      (a.n0 * (1 / d)) (a.n1 * (1 / d)) (a.n2 * (1 / d)) (a.n3 * (1 / d))
      (a.n4 * (1 / d)) (a.n5 * (1 / d)) (a.n6 * (1 / d)) (a.n7 * (1 / d))
      (a.n8 * (1 / d)) (a.n9 * (1 / d)) (a.n10 * (1 / d)) (a.n11 * (1 / d))
      (a.n12 * (1 / d)) (a.n13 * (1 / d)) (a.n14 * (1 / d)) (a.n15 * (1 / d))

/-- Source `RotationXMatrix4`: starts from the identity and sets
`n[5] = cos`, `n[6] = sin`, `n[9] = -sin`, `n[10] = cos`. -/
def RotationXMatrix4 (angle : ℝ) : matrix4_t :=
  Matrix4
    1 0 0 0
    0 (Real.cos angle) (Real.sin angle) 0
    0 (-Real.sin angle) (Real.cos angle) 0
    0 0 0 1

/-- Source `RotationYMatrix4`: starts from the identity and sets
`n[0] = cos`, `n[2] = -sin`, `n[8] = sin`, `n[10] = cos`. -/
def RotationYMatrix4 (angle : ℝ) : matrix4_t :=
  Matrix4
    (Real.cos angle) 0 (-Real.sin angle) 0
    0 1 0 0
    (Real.sin angle) 0 (Real.cos angle) 0
    0 0 0 1

/-- Source `RotationZMatrix4`: starts from the identity and sets
`n[0] = cos`, `n[1] = sin`, `n[4] = -sin`, `n[5] = cos`. -/
def RotationZMatrix4 (angle : ℝ) : matrix4_t :=
  Matrix4
    (Real.cos angle) (Real.sin angle) 0 0
    (-Real.sin angle) (Real.cos angle) 0 0
    0 0 1 0
    0 0 0 1

/-- Source `RotationYawPitchRollMatrix4`:
`MultiplyMatrix4(RotationZMatrix4(r), MultiplyMatrix4(RotationXMatrix4(p), RotationYMatrix4(y)))`. -/
def RotationYawPitchRollMatrix4 (y p r : ℝ) : matrix4_t :=
  MultiplyMatrix4 (RotationZMatrix4 r)
    (MultiplyMatrix4 (RotationXMatrix4 p) (RotationYMatrix4 y))

/-- Source `OrthographicOffCenterLHMatrix4` with parameter order
`(l, r, t, b, zn, zf)` exactly as declared in the source. -/
def OrthographicOffCenterLHMatrix4 (l r t b zn zf : ℝ) : matrix4_t :=
  Matrix4
    (2 / (r - l)) 0 0 0
    0 (2 / (t - b)) 0 0
    0 0 (1 / (zf - zn)) 0
    ((l + r) / (l - r)) ((t + b) / (b - t)) (zn / (zn - zf)) 1

/-- Source `PerspectiveFovLHMatrix4`:
`yScale = tanf(H_PI - fovy/2)`, `xScale = yScale / aspect`. -/
def PerspectiveFovLHMatrix4 (fovy aspect zn zf : ℝ) : matrix4_t :=
  let yScale := Real.tan (H_PI - fovy / 2)
  let xScale := yScale / aspect
  Matrix4
    xScale 0 0 0
    0 yScale 0 0
    0 0 (zf / (zf - zn)) 1
    0 0 ((-zn * zf) / (zf - zn)) 0

/-- Source `ProjectViewport`: builds the combined matrix
`O * (projection * (view * world))` where `O` is the off-center-orthographic
viewport matrix, then applies `TransformVector3Coord`. -/
def ProjectViewport (v : vector3_t) (vp : viewport_t)
    (projection view world : matrix4_t) : vector3_t :=
  let t := MultiplyMatrix4
    (OrthographicOffCenterLHMatrix4 (vp.x : ℝ) ((vp.x + vp.w : ℕ) : ℝ)
      (vp.y : ℝ) ((vp.y + vp.h : ℕ) : ℝ) vp.minZ vp.maxZ)
    (MultiplyMatrix4 projection (MultiplyMatrix4 view world))
  TransformVector3Coord v t

/-- Source `UnprojectViewport`: builds the combined matrix
`world * (view * (projection * O))` with the same forward matrices (no
matrix is inverted), then applies `TransformVector3Coord`. -/
def UnprojectViewport (v : vector3_t) (vp : viewport_t)
    (projection view world : matrix4_t) : vector3_t :=
  let t := MultiplyMatrix4 world
    (MultiplyMatrix4 view
      (MultiplyMatrix4 projection
        (OrthographicOffCenterLHMatrix4 (vp.x : ℝ) ((vp.x + vp.w : ℕ) : ℝ)
          (vp.y : ℝ) ((vp.y + vp.h : ℕ) : ℝ) vp.minZ vp.maxZ)))
  TransformVector3Coord v t

/-- Reference definition following the spec's words (the `general 4x4
determinant formula` of §4.1 and §8): the textbook determinant, written as
the cofactor expansion along the first row.  It is compared against the
source's `DeterminantMatrix4`. -/
def specDeterminant4 (m : matrix4_t) : ℝ :=
  m.n0 * (m.n5 * (m.n10 * m.n15 - m.n11 * m.n14) -
          m.n6 * (m.n9 * m.n15 - m.n11 * m.n13) +
          m.n7 * (m.n9 * m.n14 - m.n10 * m.n13)) -
  m.n1 * (m.n4 * (m.n10 * m.n15 - m.n11 * m.n14) -
          m.n6 * (m.n8 * m.n15 - m.n11 * m.n12) +
          m.n7 * (m.n8 * m.n14 - m.n10 * m.n12)) +
  m.n2 * (m.n4 * (m.n9 * m.n15 - m.n11 * m.n13) -
          m.n5 * (m.n8 * m.n15 - m.n11 * m.n12) +
          m.n7 * (m.n8 * m.n13 - m.n9 * m.n12)) -
  m.n3 * (m.n4 * (m.n9 * m.n14 - m.n10 * m.n13) -
          m.n5 * (m.n8 * m.n14 - m.n10 * m.n12) +
          m.n6 * (m.n8 * m.n13 - m.n9 * m.n12))

/-- C8: for all 4d vectors `a` and `b`, `SubtractVector4 a b` is the
component-wise difference in `x`, `y`, `z`, while the `w` component uses
addition: the result equals `(a.x - b.x, a.y - b.y, a.z - b.z, a.w + b.w)`. -/
theorem subtractVector4_w_uses_addition (a b : vector4_t) :
    SubtractVector4 a b =
      Vector4 (a.x - b.x) (a.y - b.y) (a.z - b.z) (a.w + b.w) :=
  rfl

/-- C9: for every 3d vector `v` and matrix `m`, `TransformVector3Normal v m`
returns exactly the same result as `TransformVector3Coord v m`; in
particular the normal transform also adds the translation entries `n[12]`,
`n[13]`, `n[14]`, treating the normal as a position with implicit `w = 1`. -/
theorem transformVector3Normal_eq_transformVector3Coord
    (v : vector3_t) (m : matrix4_t) :
    TransformVector3Normal v m = TransformVector3Coord v m ∧
    TransformVector3Normal v m =
      Vector3 (v.x * m.n0 + v.y * m.n4 + v.z * m.n8 + m.n12)
              (v.x * m.n1 + v.y * m.n5 + v.z * m.n9 + m.n13)
              (v.x * m.n2 + v.y * m.n6 + v.z * m.n10 + m.n14) :=
  ⟨rfl, rfl⟩

/-- C10: `TransformVector3Coord v m` is exactly the first three components
of `TransformVector4 (v.x, v.y, v.z, 1) m`, with no division by the
resulting `w` component; and `ProjectViewport` applies its combined matrix
to the point through `TransformVector3Coord` alone, so it never performs a
perspective divide. -/
theorem transformVector3Coord_no_perspective_divide
    (v : vector3_t) (m : matrix4_t) :
    (TransformVector3Coord v m =
      Vector3 (TransformVector4 (Vector4 v.x v.y v.z 1) m).x
              (TransformVector4 (Vector4 v.x v.y v.z 1) m).y
              (TransformVector4 (Vector4 v.x v.y v.z 1) m).z) ∧
    ∀ (vp : viewport_t) (projection view world : matrix4_t),
      ProjectViewport v vp projection view world =
        TransformVector3Coord v
          (MultiplyMatrix4
            (OrthographicOffCenterLHMatrix4 (vp.x : ℝ) ((vp.x + vp.w : ℕ) : ℝ)
              (vp.y : ℝ) ((vp.y + vp.h : ℕ) : ℝ) vp.minZ vp.maxZ)
            (MultiplyMatrix4 projection (MultiplyMatrix4 view world))) := by
  constructor
  · simp only [TransformVector3Coord, TransformVector4, Vector3, Vector4,
      one_mul]
  · intro vp projection view world
    rfl

/-- C3: whenever the determinant computed by `DeterminantMatrix4` is exactly
zero, `InverseMatrix4` returns exactly the identity matrix; inversion of a
singular matrix is total and degrades to the identity instead of failing. -/
theorem inverseMatrix4_singular_returns_identity (m : matrix4_t)
    (h : DeterminantMatrix4 m = 0) :
    InverseMatrix4 m = identityMatrix4 := by
  unfold InverseMatrix4
  simp [h]

/-- Witness for `inverseMatrix4_singular_returns_identity` at the all-zero
matrix. -/
theorem inverseMatrix4_singular_returns_identity_witness :
    DeterminantMatrix4 (Matrix4 0 0 0 0 0 0 0 0 0 0 0 0 0 0 0 0) = 0 ∧
    InverseMatrix4 (Matrix4 0 0 0 0 0 0 0 0 0 0 0 0 0 0 0 0) =
      identityMatrix4 :=
  ⟨by norm_num [DeterminantMatrix4, Matrix4],
   inverseMatrix4_singular_returns_identity _
     (by norm_num [DeterminantMatrix4, Matrix4])⟩

/-- C5: for all angles, `RotationYawPitchRollMatrix4 y p r` equals the
product `Z(roll) * X(pitch) * Y(yaw)` in that fixed order, and with all
three angles zero it yields the identity matrix. -/
theorem rotationYawPitchRoll_order_and_identity :
    (∀ y p r : ℝ, RotationYawPitchRollMatrix4 y p r =
        MultiplyMatrix4 (RotationZMatrix4 r)
          (MultiplyMatrix4 (RotationXMatrix4 p) (RotationYMatrix4 y))) ∧
    RotationYawPitchRollMatrix4 0 0 0 = identityMatrix4 := by
  refine ⟨fun y p r => rfl, ?_⟩
  simp only [RotationYawPitchRollMatrix4, RotationXMatrix4, RotationYMatrix4,
    RotationZMatrix4, MultiplyMatrix4, Matrix4, identityMatrix4]
  norm_num

/-- C6 counterexample: the plane `(2,0,0,1)` contains the point
`(-1/2,0,0)` (its `DotPlaneCoordinate` is 0), but `NormalizePlane` rescales
only `(a,b,c)` and keeps `d` unchanged, giving the plane `(1,0,0,1)`, on
which the same point evaluates to `1/2` — not approximately 0, so the
normalized plane does not represent the same implicit surface. -/
theorem normalizePlane_changes_surface :
    DotPlaneCoordinate (Plane 2 0 0 1) (Vector3 (-(1 / 2)) 0 0) = 0 ∧
    NormalizePlane (Plane 2 0 0 1) = Plane 1 0 0 1 ∧
    DotPlaneCoordinate (NormalizePlane (Plane 2 0 0 1))
      (Vector3 (-(1 / 2)) 0 0) = 1 / 2 := by
  have h4 : Real.sqrt 4 = 2 := by
    rw [show (4 : ℝ) = 2 ^ 2 by norm_num, Real.sqrt_sq (by norm_num)]
  refine ⟨?_, ?_, ?_⟩ <;>
    norm_num [DotPlaneCoordinate, NormalizePlane, NormalizeVector3,
      DotVector4, DotVector3, Plane, Vector3, Vector4, h4]

/-- C6 amended: for every plane whose `(a,b,c)` is non-zero,
`NormalizePlane` rescales the three normal components by `1/|(a,b,c)|` and
leaves the `d` component unchanged; the resulting `(a,b,c)` has length 1
(the represented implicit surface is in general a different one, see the
counterexample). -/
theorem normalizePlane_amended (a b c d : ℝ)
    (h : a ≠ 0 ∨ b ≠ 0 ∨ c ≠ 0) :
    NormalizePlane (Plane a b c d) =
      Plane (a * (1 / Real.sqrt (a * a + b * b + c * c)))
            (b * (1 / Real.sqrt (a * a + b * b + c * c)))
            (c * (1 / Real.sqrt (a * a + b * b + c * c))) d ∧
    (NormalizePlane (Plane a b c d)).a ^ 2 +
      (NormalizePlane (Plane a b c d)).b ^ 2 +
      (NormalizePlane (Plane a b c d)).c ^ 2 = 1 := by
  have hs : 0 < a * a + b * b + c * c := by
    rcases h with h | h | h <;>
      nlinarith [mul_self_nonneg a, mul_self_nonneg b, mul_self_nonneg c,
        mul_self_pos.mpr h]
  have heq : NormalizePlane (Plane a b c d) =
      Plane (a * (1 / Real.sqrt (a * a + b * b + c * c)))
            (b * (1 / Real.sqrt (a * a + b * b + c * c)))
            (c * (1 / Real.sqrt (a * a + b * b + c * c))) d := by
    simp only [NormalizePlane, NormalizeVector3, DotVector3, Plane, Vector3]
    rw [if_pos h]
  refine ⟨heq, ?_⟩
  rw [heq]
  simp only [Plane]
  have hexp : (a * (1 / Real.sqrt (a * a + b * b + c * c))) ^ 2 +
      (b * (1 / Real.sqrt (a * a + b * b + c * c))) ^ 2 +
      (c * (1 / Real.sqrt (a * a + b * b + c * c))) ^ 2 =
      (a * a + b * b + c * c) / Real.sqrt (a * a + b * b + c * c) ^ 2 := by
    ring
  rw [hexp, Real.sq_sqrt hs.le, div_self (ne_of_gt hs)]

/-- Witness for `normalizePlane_amended` at the plane `(3,4,0,5)`. -/
theorem normalizePlane_amended_witness :
    ((3 : ℝ) ≠ 0 ∨ (4 : ℝ) ≠ 0 ∨ (0 : ℝ) ≠ 0) ∧
    (NormalizePlane (Plane 3 4 0 5) =
      Plane (3 * (1 / Real.sqrt (3 * 3 + 4 * 4 + 0 * 0)))
            (4 * (1 / Real.sqrt (3 * 3 + 4 * 4 + 0 * 0)))
            (0 * (1 / Real.sqrt (3 * 3 + 4 * 4 + 0 * 0))) 5 ∧
     (NormalizePlane (Plane 3 4 0 5)).a ^ 2 +
       (NormalizePlane (Plane 3 4 0 5)).b ^ 2 +
       (NormalizePlane (Plane 3 4 0 5)).c ^ 2 = 1) :=
  ⟨by norm_num, normalizePlane_amended 3 4 0 5 (by norm_num)⟩

/-- C7: evaluation at a straddling pair.  For the plane `(1,0,0,0)` (the
plane `x = 0`, unit normal) and the endpoints `(-1,0,0)` and `(1,0,0)`,
whose signed distances `-1` and `1` have opposite signs (their product is
negative), `LineIntersectPlane` returns the endpoint `(-1,0,0)` itself,
whose `DotPlaneCoordinate` is `-1`, not approximately 0: the code compares
`plane.d` against the endpoints' distances from the origin, never against
their distances from the plane, so the interpolation branch is not taken. -/
theorem lineIntersectPlane_straddle_misses_plane :
    DotPlaneCoordinate (Plane 1 0 0 0) (Vector3 (-1) 0 0) *
      DotPlaneCoordinate (Plane 1 0 0 0) (Vector3 1 0 0) < 0 ∧
    LineIntersectPlane (Plane 1 0 0 0) (Vector3 (-1) 0 0) (Vector3 1 0 0) =
      Vector3 (-1) 0 0 ∧
    DotPlaneCoordinate (Plane 1 0 0 0)
      (LineIntersectPlane (Plane 1 0 0 0) (Vector3 (-1) 0 0)
        (Vector3 1 0 0)) = -1 := by
  have h1 : LengthVector3 (Vector3 (-1) 0 0) = 1 := by
    norm_num [LengthVector3, DotVector3, Vector3, Real.sqrt_one]
  have h2 : LengthVector3 (Vector3 1 0 0) = 1 := by
    norm_num [LengthVector3, DotVector3, Vector3, Real.sqrt_one]
  have hL : LineIntersectPlane (Plane 1 0 0 0) (Vector3 (-1) 0 0)
      (Vector3 1 0 0) = Vector3 (-1) 0 0 := by
    simp only [LineIntersectPlane, h1, h2]
    norm_num [Plane, Vector3]
  have hd0 : DotPlaneCoordinate (Plane 1 0 0 0) (Vector3 (-1) 0 0) = -1 := by
    norm_num [DotPlaneCoordinate, DotVector4, Vector4, Plane, Vector3]
  have hd1 : DotPlaneCoordinate (Plane 1 0 0 0) (Vector3 1 0 0) = 1 := by
    norm_num [DotPlaneCoordinate, DotVector4, Vector4, Plane, Vector3]
  refine ⟨by rw [hd0, hd1]; norm_num, hL, by rw [hL, hd0]⟩

/-- C4: evaluation at a repeated-row matrix.  The matrix with rows
`(1,2,3,4)`, `(1,2,3,4)`, `(5,6,7,8)`, `(9,10,11,12)` repeats its first
row, so the general 4x4 determinant (`specDeterminant4`, following the
spec's words) is 0; but `DeterminantMatrix4` — an eight-term diagonal-rule
expansion, not a 4x4 determinant — returns 1632. -/
theorem determinantMatrix4_repeated_row_nonzero :
    specDeterminant4 (Matrix4 1 2 3 4 1 2 3 4 5 6 7 8 9 10 11 12) = 0 ∧
    DeterminantMatrix4 (Matrix4 1 2 3 4 1 2 3 4 5 6 7 8 9 10 11 12) =
      1632 := by
  constructor <;> norm_num [specDeterminant4, DeterminantMatrix4, Matrix4]

/-- C2: evaluation at the block matrix `M` with rows `(1,2,0,0)`,
`(3,4,0,0)`, `(0,0,1,0)`, `(0,0,0,1)`.  `DeterminantMatrix4 M = 4`, which
is non-zero (the true determinant is `-2`), and the product
`M * InverseMatrix4 M` is `-(1/2)` times the identity — every diagonal
entry is `-1/2`, nowhere near 1 — because `InverseMatrix4` divides the
cofactor matrix by the incorrect eight-term determinant. -/
theorem multiply_inverseMatrix4_not_identity :
    DeterminantMatrix4 (Matrix4 1 2 0 0 3 4 0 0 0 0 1 0 0 0 0 1) = 4 ∧
    specDeterminant4 (Matrix4 1 2 0 0 3 4 0 0 0 0 1 0 0 0 0 1) = -2 ∧
    MultiplyMatrix4 (Matrix4 1 2 0 0 3 4 0 0 0 0 1 0 0 0 0 1)
        (InverseMatrix4 (Matrix4 1 2 0 0 3 4 0 0 0 0 1 0 0 0 0 1)) =
      Matrix4 (-(1 / 2)) 0 0 0 0 (-(1 / 2)) 0 0
              0 0 (-(1 / 2)) 0 0 0 0 (-(1 / 2)) := by
  refine ⟨by norm_num [DeterminantMatrix4, Matrix4],
          by norm_num [specDeterminant4, Matrix4], ?_⟩
  norm_num [MultiplyMatrix4, InverseMatrix4, InverseMatrix4Cofactors,
    DeterminantMatrix4, Matrix4]

/-- C1: evaluation of the round trip at a point strictly inside the
frustum.  With viewport `(0,0,800,600,0,1)`, identity world and view, and
`PerspectiveFovLHMatrix4 (pi/4) (800/600) (1/10) 100`, the point
`(0,0,1)` lies on the view axis with depth strictly between the near and
far planes, yet `UnprojectViewport (ProjectViewport p ...) ...` returns a
point whose `z` is exactly `800100/998001`, about `0.8017`, an error of
about `0.198 > 1e-2` from `p.z = 1` (independent of the tangent factor):
`UnprojectViewport` composes the same forward matrices in reverse order
without inverting any of them, and `ProjectViewport` performs no
perspective divide, so the composition is not approximately the identity. -/
theorem unproject_project_roundtrip_fails :
    (UnprojectViewport
        (ProjectViewport (Vector3 0 0 1) (Viewport 0 0 800 600 0 1)
          (PerspectiveFovLHMatrix4 (Real.pi / 4) (800 / 600) (1 / 10) 100)
          identityMatrix4 identityMatrix4)
        (Viewport 0 0 800 600 0 1)
        (PerspectiveFovLHMatrix4 (Real.pi / 4) (800 / 600) (1 / 10) 100)
        identityMatrix4 identityMatrix4).z = 800100 / 998001 ∧
    (1 : ℝ) - 800100 / 998001 > 1 / 100 := by
  constructor
  · simp only [UnprojectViewport, ProjectViewport, MultiplyMatrix4,
      OrthographicOffCenterLHMatrix4, PerspectiveFovLHMatrix4,
      TransformVector3Coord, identityMatrix4, Matrix4, Vector3, Viewport]
    norm_num
  · norm_num

end

end D3D
